import Mathlib

/-
Shallow embedding of the scroll-based pagination core of the elasticsearch
Go client library: the `Scroller` state, `SearchByScanAndScroll` (Open),
`NextChunk` (Advance), and the shared transport primitive `sendHTTPRequest`.

Modelling conventions:
  * `time.Duration` is an int64 count of nanoseconds; we model it as `Int`
    wrapped in a structure.  `int(d.Seconds())` truncates toward zero, which
    we model as `Int.tdiv ns 1000000000` (exact for every duration whose
    magnitude stays far below the float64 precision limit).
  * The network is a pure function `Transport : HttpRequest → HttpOutcome`;
    each call of the Go `sendHTTPRequest` issues exactly one request, so our
    embedding additionally returns the list of requests issued, allowing
    claims about the number of transport invocations.
  * `encoding/json.Unmarshal` into `*Scroller` is modelled in two layers:
    an abstract parser `Decoder : String → Except String ScrollerJson`
    (the JSON syntax layer, quantified over in theorems) and a concrete
    field-application layer `applyScrollerJson` implementing the stdlib
    semantics for this struct: a JSON field that is present overwrites the
    corresponding tagged Go field, an absent field leaves the old value,
    JSON `null` for the hits slice yields a nil slice, and unexported
    fields (`baseUrl`, `expire`, `httpTimeout`) can never be written.
    On a parse error the struct is modelled as unchanged.
  * Go `float32` values are never computed with here, only carried, so they
    are modelled by their 32-bit pattern.
  * A Go nil slice is `none`; a non-nil slice of length n is `some l`.
-/

namespace ES

/-- Go time.Duration: a count of nanoseconds (int64). -/
structure Duration where
  ns : Int
deriving DecidableEq, Repr

/-- Go `int(d.Seconds())`: whole seconds, truncated toward zero. -/
def Duration.secondsInt (d : Duration) : Int :=
  d.ns.tdiv 1000000000

/-- The scroll expiry string `fmt.Sprintf("%ds", int(expireTime.Seconds()))`. -/
def expireString (d : Duration) : String :=
  toString d.secondsInt ++ "s"

/-- A float32 value carried opaquely, identified by its 32-bit pattern. -/
structure Float32 where
  bits : Nat
deriving DecidableEq, Repr

/-- The nested `_shards` struct of `Scroller`. -/
structure ShardInfo where
  total : Int
  successful : Int
  failed : Int
deriving DecidableEq, Repr

/-- One element of `ResultHits.Hits` (anonymous struct in the Go source). -/
structure Hit where
  index : String
  typ : String
  id : String
  score : Float32
  source : String
  highlight : List (String × List String)
deriving DecidableEq, Repr

/-- Go `ResultHits`; the `Hits` slice distinguishes nil (`none`) from a
    present slice (`some l`). -/
structure ResultHits where
  total : Int
  maxScore : Float32
  hits : Option (List Hit)
deriving DecidableEq, Repr

/-- Go `Scroller`: the exported, json-tagged fields followed by the three
    unexported configuration fields. -/
structure Scroller where
  ScrollId : String
  Took : Nat
  TimedOut : Bool
  Shards : ShardInfo
  Hits : ResultHits
  baseUrl : String
  expire : String
  httpTimeout : Duration
deriving DecidableEq, Repr

/-- The fields a JSON document may supply for the `_shards` object; `none`
    means the key is absent and the old value is kept. -/
structure ShardsJson where
  total : Option Int
  successful : Option Int
  failed : Option Int
deriving DecidableEq, Repr

/-- The fields a JSON document may supply for the `hits` object. The inner
    slice field is doubly optional: outer `none` = key absent (old value
    kept), `some none` = JSON null (nil slice), `some (some l)` = array. -/
structure HitsJson where
  total : Option Int
  maxScore : Option Float32
  hits : Option (Option (List Hit))
deriving DecidableEq, Repr

/-- The json-taggable fields of `Scroller` as a decoded JSON document. -/
structure ScrollerJson where
  scrollId : Option String
  took : Option Nat
  timedOut : Option Bool
  shards : Option ShardsJson
  hits : Option HitsJson
deriving DecidableEq, Repr

/-- Apply a decoded `_shards` object to the old shard info (present keys
    overwrite, absent keys keep). -/
def applyShardsJson (old : ShardInfo) (j : ShardsJson) : ShardInfo :=
  { total := j.total.getD old.total
    successful := j.successful.getD old.successful
    failed := j.failed.getD old.failed }

/-- Apply a decoded `hits` object to the old result hits. -/
def applyHitsJson (old : ResultHits) (j : HitsJson) : ResultHits :=
  { total := j.total.getD old.total
    maxScore := j.maxScore.getD old.maxScore
    hits := j.hits.getD old.hits }

/-- Apply a decoded scroller document to a `Scroller`: exactly the
    json-tagged fields can change; `baseUrl`, `expire` and `httpTimeout`
    are unexported in Go and unreachable by `json.Unmarshal`. -/
def applyScrollerJson (s : Scroller) (j : ScrollerJson) : Scroller :=
  { s with
    ScrollId := j.scrollId.getD s.ScrollId
    Took := j.took.getD s.Took
    TimedOut := j.timedOut.getD s.TimedOut
    Shards := match j.shards with
      | none => s.Shards
      | some sh => applyShardsJson s.Shards sh
    Hits := match j.hits with
      | none => s.Hits
      | some h => applyHitsJson s.Hits h }

/-- The JSON syntax layer of `json.Unmarshal` for scroller documents,
    abstract: `.error e` models an unmarshal failure with message `e`. -/
abbrev Decoder : Type :=
  String → Except String ScrollerJson

/-- Go `json.Unmarshal(body, scroller)`: returns the updated struct and the
    error value. On a parse failure the struct is modelled as unchanged. -/
def unmarshalScroller (decode : Decoder) (body : String) (s : Scroller) :
    Scroller × Option String :=
  match decode body with
  | .error e => (s, some e)
  | .ok j => (applyScrollerJson s j, none)

/-- One HTTP request as handed to the transport: method, URL, optional
    request body, the Content-Type header set by `sendHTTPRequest`, and the
    per-request timeout. -/
structure HttpRequest where
  method : String
  url : String
  body : Option String
  contentType : Option String
  timeout : Duration
deriving DecidableEq, Repr

/-- What the network does with one request: a connection-level failure from
    `client.Do`, or a response with a status code and a body. -/
inductive HttpOutcome where
  | netErr (msg : String)
  | resp (status : Int) (body : String)
deriving DecidableEq, Repr

/-- The network, as a pure map from requests to outcomes. -/
abbrev Transport : Type :=
  HttpRequest → HttpOutcome

/-- The Content-Type header `sendHTTPRequest` sets: form-encoded for POST
    and PUT, nothing otherwise. -/
def contentTypeFor (method : String) : Option String :=
  if method = "POST" ∨ method = "PUT" then some "application/x-www-form-urlencoded"
  else none

/-- Build the single request a `sendHTTPRequest` call issues. -/
def mkRequest (method url : String) (body : Option String) (timeout : Duration) :
    HttpRequest :=
  { method := method, url := url, body := body
    contentType := contentTypeFor method, timeout := timeout }

/-- Classify one HTTP outcome exactly as `sendHTTPRequest` does: a
    connection error propagates; a status strictly greater than 201
    (StatusCreated) and strictly less than 404 (StatusNotFound) is a failure
    whose message is the raw body; every other status returns the body. -/
def httpResult (out : HttpOutcome) : Except String String :=
  match out with
  | .netErr m => .error m
  | .resp status b =>
      if 201 < status ∧ status < 404 then .error b else .ok b

/-- Go `sendHTTPRequest(method, url, body, timeout)`: issues exactly one
    request and classifies the outcome. The second component records the
    requests issued (always exactly one). -/
def sendHTTPRequest (t : Transport) (method url : String) (body : Option String)
    (timeout : Duration) : Except String String × List HttpRequest :=
  (httpResult (t (mkRequest method url body timeout)),
   [mkRequest method url body timeout])

/-- The client: the host URL string and the shared request timeout. -/
structure Client where
  host : String
  timeout : Duration
deriving DecidableEq, Repr

/-- Go `(c *client) SetHttpTimeout(duration)`: overwrite the client's
    timeout, returning the updated client. -/
def SetHttpTimeout (c : Client) (d : Duration) : Client :=
  { c with timeout := d }

/-- The validation error message of `SearchByScanAndScroll`. -/
def validationMsg : String :=
  "Either indexName, documentType, or expirationTime parameter is invalid!"

/-- The zero-valued `&Scroller{}` after the three configuration assignments
    `scroller.baseUrl = c.Host.String()`, `scroller.expire = expire`,
    `scroller.httpTimeout = c.Timeout`. -/
def zeroScroller (c : Client) (expire : String) : Scroller :=
  { ScrollId := "", Took := 0, TimedOut := false
    Shards := { total := 0, successful := 0, failed := 0 }
    Hits := { total := 0, maxScore := { bits := 0 }, hits := none }
    baseUrl := c.host, expire := expire, httpTimeout := c.timeout }

/-- The URL of the open request,
    `fmt.Sprintf("%s/%s/%s/_search?search_type=scan&scroll=%s", ...)`. -/
def openUrl (c : Client) (indexName documentType expire : String) : String :=
  c.host ++ "/" ++ indexName ++ "/" ++ documentType ++
    "/_search?search_type=scan&scroll=" ++ expire

/-- The result of `SearchByScanAndScroll`: the `*Scroller` (nil = `none`),
    the error value, and the transport requests issued during the call. -/
structure OpenResult where
  scroller : Option Scroller
  error : Option String
  requests : List HttpRequest
deriving DecidableEq, Repr

/-- Go `(c *client) SearchByScanAndScroll(indexName, documentType,
    expireTime, body)`: validate, POST the scan query, then unmarshal the
    response into a fresh scroller; note the final `return scroller, err`
    returns the scroller alongside any unmarshal error. -/
def SearchByScanAndScroll (t : Transport) (decode : Decoder) (c : Client)
    (indexName documentType : String) (expireTime : Duration) (body : String) :
    OpenResult :=
  if indexName = "" ∨ documentType = "" ∨ expireTime.ns = 0 then
    { scroller := none, error := some validationMsg, requests := [] }
  else
    match (sendHTTPRequest t "POST"
        (openUrl c indexName documentType (expireString expireTime))
        (some body) c.timeout).1 with
    | .error e =>
        { scroller := none, error := some e
          requests := (sendHTTPRequest t "POST"
            (openUrl c indexName documentType (expireString expireTime))
            (some body) c.timeout).2 }
    | .ok resp =>
        { scroller := some (unmarshalScroller decode resp
            (zeroScroller c (expireString expireTime))).1
          error := (unmarshalScroller decode resp
            (zeroScroller c (expireString expireTime))).2
          requests := (sendHTTPRequest t "POST"
            (openUrl c indexName documentType (expireString expireTime))
            (some body) c.timeout).2 }

/-- The URL of the advance request,
    `fmt.Sprintf("%s/_search/scroll?scroll=%s&scroll_id=%s", ...)`. -/
def advanceUrl (s : Scroller) : String :=
  s.baseUrl ++ "/_search/scroll?scroll=" ++ s.expire ++ "&scroll_id=" ++ s.ScrollId

/-- The result of `NextChunk`: the scroller after the call (the Go method
    mutates in place), the returned error, and the requests issued. -/
structure ChunkResult where
  scroller : Scroller
  error : Option String
  requests : List HttpRequest
deriving DecidableEq, Repr

/-- Go `(scroller *Scroller) NextChunk()`: GET the scroll continuation and
    unmarshal the response into the same scroller. -/
def NextChunk (t : Transport) (decode : Decoder) (s : Scroller) : ChunkResult :=
  match (sendHTTPRequest t "GET" (advanceUrl s) none s.httpTimeout).1 with
  | .error e =>
      { scroller := s, error := some e
        requests := (sendHTTPRequest t "GET" (advanceUrl s) none s.httpTimeout).2 }
  | .ok resp =>
      { scroller := (unmarshalScroller decode resp s).1
        error := (unmarshalScroller decode resp s).2
        requests := (sendHTTPRequest t "GET" (advanceUrl s) none s.httpTimeout).2 }

/-- The scroller after a sequence of advance calls, each step with its own
    network behaviour and decoder. -/
def runAdvances (steps : List (Transport × Decoder)) (s : Scroller) : Scroller :=
  steps.foldl (fun acc st => (NextChunk st.1 st.2 acc).scroller) s

/- Concrete fixtures used by witnesses and counterexamples. -/

/-- Example client for concrete evaluations. -/
def egClient : Client :=
  { host := "http://localhost:9200", timeout := { ns := 0 } }

/-- A scroller document with no fields present (the JSON object with no
    recognised keys). -/
def emptyJson : ScrollerJson :=
  { scrollId := none, took := none, timedOut := none, shards := none, hits := none }

/-- A decoder that accepts every body as an empty document. -/
def egDecode : Decoder :=
  fun _ => .ok emptyJson

/-- A transport answering every request with HTTP 200 and body "ok". -/
def egTransport : Transport :=
  fun _ => .resp 200 "ok"

/-- A decoder that rejects every body, as `json.Unmarshal` does on a body
    that is not valid JSON. -/
def badDecode : Decoder :=
  fun _ => .error "invalid character"

/-- A transport answering every request with HTTP 500. -/
def t500 : Transport :=
  fun _ => .resp 500 "internal server error"

/-- A transport answering every request with HTTP 400. -/
def t400 : Transport :=
  fun _ => .resp 400 "bad request"

/-- A transport failing every request at the connection level. -/
def tConnRefused : Transport :=
  fun _ => .netErr "connection refused"

/-- A scroller document carrying only a fresh scroll identifier. -/
def egJsonNewId : ScrollerJson :=
  { scrollId := some "NEW", took := none, timedOut := none, shards := none
    hits := none }

/-- A decoder whose every answer is `egJsonNewId`. -/
def decodeNewId : Decoder :=
  fun _ => .ok egJsonNewId

/-- A scroller document whose hits object carries an empty (zero-hit) array. -/
def egJsonEmptyHits : ScrollerJson :=
  { scrollId := some "abc", took := some 3, timedOut := some false
    shards := some { total := some 5, successful := some 5, failed := some 0 }
    hits := some { total := some 0, maxScore := some { bits := 0 }
                   hits := some (some []) } }

/-- A decoder whose every answer is `egJsonEmptyHits`. -/
def decodeEmptyHits : Decoder :=
  fun _ => .ok egJsonEmptyHits

/-- An example in-flight scroller, as left by a successful open. -/
def egScroller : Scroller :=
  { ScrollId := "OLD", Took := 3, TimedOut := false
    Shards := { total := 5, successful := 5, failed := 0 }
    Hits := { total := 25, maxScore := { bits := 0 }, hits := some [] }
    baseUrl := "http://localhost:9200", expire := "60s"
    httpTimeout := { ns := 1000000000 } }

/- Helper lemmas shared by the claim theorems. -/

/-- A `sendHTTPRequest` call always issues exactly its one request. -/
theorem sendHTTPRequest_snd (t : Transport) (m u : String) (b : Option String)
    (tmo : Duration) : (sendHTTPRequest t m u b tmo).2 = [mkRequest m u b tmo] :=
  rfl

/-- Unmarshalling can never change the unexported configuration fields. -/
theorem unmarshal_config (decode : Decoder) (b : String) (s : Scroller) :
    ((unmarshalScroller decode b s).1).baseUrl = s.baseUrl ∧
    ((unmarshalScroller decode b s).1).expire = s.expire ∧
    ((unmarshalScroller decode b s).1).httpTimeout = s.httpTimeout := by
  unfold unmarshalScroller
  cases h : decode b <;> exact ⟨rfl, rfl, rfl⟩

/-- One advance call never changes the configuration fields. -/
theorem nextChunk_config (t : Transport) (decode : Decoder) (s : Scroller) :
    (NextChunk t decode s).scroller.baseUrl = s.baseUrl ∧
    (NextChunk t decode s).scroller.expire = s.expire ∧
    (NextChunk t decode s).scroller.httpTimeout = s.httpTimeout := by
  unfold NextChunk
  cases h : (sendHTTPRequest t "GET" (advanceUrl s) none s.httpTimeout).1 with
  | error e => exact ⟨rfl, rfl, rfl⟩
  | ok resp => exact unmarshal_config decode resp s

/-- Any sequence of advance calls never changes the configuration fields. -/
theorem runAdvances_config (steps : List (Transport × Decoder)) (s : Scroller) :
    (runAdvances steps s).baseUrl = s.baseUrl ∧
    (runAdvances steps s).expire = s.expire ∧
    (runAdvances steps s).httpTimeout = s.httpTimeout := by
  induction steps generalizing s with
  | nil => exact ⟨rfl, rfl, rfl⟩
  | cons st rest ih =>
      have hstep : runAdvances (st :: rest) s =
          runAdvances rest ((NextChunk st.1 st.2 s).scroller) := rfl
      rw [hstep]
      have h1 := nextChunk_config st.1 st.2 s
      have h2 := ih ((NextChunk st.1 st.2 s).scroller)
      exact ⟨h2.1.trans h1.1, h2.2.1.trans h1.2.1, h2.2.2.trans h1.2.2⟩

/-- Every advance call issues exactly one GET request, built from the
    scroller's current configuration and identifier. -/
theorem nextChunk_requests (t : Transport) (decode : Decoder) (s : Scroller) :
    (NextChunk t decode s).requests =
      [mkRequest "GET" (advanceUrl s) none s.httpTimeout] := by
  unfold NextChunk
  cases h : (sendHTTPRequest t "GET" (advanceUrl s) none s.httpTimeout).1 <;> rfl

/-- Shape of a failed open past validation: nil scroller, the transport
    error, one issued request. -/
theorem open_err_shape (t : Transport) (decode : Decoder) (c : Client)
    (idx dt : String) (d : Duration) (qb : String) (e : String)
    (hv : ¬(idx = "" ∨ dt = "" ∨ d.ns = 0))
    (h : (sendHTTPRequest t "POST" (openUrl c idx dt (expireString d)) (some qb)
        c.timeout).1 = .error e) :
    SearchByScanAndScroll t decode c idx dt d qb =
      { scroller := none, error := some e
        requests := [mkRequest "POST" (openUrl c idx dt (expireString d)) (some qb)
          c.timeout] } := by
  unfold SearchByScanAndScroll
  rw [if_neg hv, h]
  rfl

/-- Shape of an open whose transport call succeeded: the fresh scroller is
    unmarshalled from the response and returned together with the unmarshal
    error value. -/
theorem open_ok_shape (t : Transport) (decode : Decoder) (c : Client)
    (idx dt : String) (d : Duration) (qb : String) (resp : String)
    (hv : ¬(idx = "" ∨ dt = "" ∨ d.ns = 0))
    (h : (sendHTTPRequest t "POST" (openUrl c idx dt (expireString d)) (some qb)
        c.timeout).1 = .ok resp) :
    SearchByScanAndScroll t decode c idx dt d qb =
      { scroller := some (unmarshalScroller decode resp
          (zeroScroller c (expireString d))).1
        error := (unmarshalScroller decode resp
          (zeroScroller c (expireString d))).2
        requests := [mkRequest "POST" (openUrl c idx dt (expireString d)) (some qb)
          c.timeout] } := by
  unfold SearchByScanAndScroll
  rw [if_neg hv, h]
  rfl

/-- A scroller handed out by a successful open carries the client's host,
    the expiry string, and the client's timeout at open time. -/
theorem open_scroller_config (t : Transport) (decode : Decoder) (c : Client)
    (idx dt : String) (d : Duration) (qb : String) (s : Scroller)
    (h : (SearchByScanAndScroll t decode c idx dt d qb).scroller = some s) :
    s.baseUrl = c.host ∧ s.expire = expireString d ∧ s.httpTimeout = c.timeout := by
  unfold SearchByScanAndScroll at h
  split at h
  · simp at h
  · split at h
    · simp at h
    · rename_i resp heq
      simp only [Option.some.injEq] at h
      subst h
      exact unmarshal_config decode resp (zeroScroller c (expireString d))

/-- C3: for every HTTP response received by `sendHTTPRequest`, the call is a
    transport failure exactly when the status is strictly greater than 201
    and strictly less than 404, the failure message then being exactly the
    raw response body; every status outside that range returns the raw body
    as a success. -/
theorem c3_transport_error_range (t : Transport) (m u : String) (b : Option String)
    (tmo : Duration) (status : Int) (rb : String)
    (h : t (mkRequest m u b tmo) = .resp status rb) :
    (201 < status ∧ status < 404 →
      (sendHTTPRequest t m u b tmo).1 = .error rb) ∧
    (¬(201 < status ∧ status < 404) →
      (sendHTTPRequest t m u b tmo).1 = .ok rb) := by
  constructor <;> intro hc <;> simp [sendHTTPRequest, httpResult, h, hc]

/-- Witness for C3 at a concrete request answered with HTTP 400. -/
theorem c3_transport_error_range_witness :
    (sendHTTPRequest t400 "GET" "http://localhost:9200/x" none { ns := 0 }).1 =
      Except.error "bad request" :=
  (c3_transport_error_range t400 "GET" "http://localhost:9200/x" none { ns := 0 }
    400 "bad request" rfl).1 (by decide)

/-- C7: every advance call issues exactly one GET request whose URL is
    baseUrl/_search/scroll?scroll=S&scroll_id=I with the scroller's stored
    expiry S and its most recently stored identifier I, no body and no
    Content-Type header, using the scroller's stored timeout. -/
theorem c7_advance_request (t : Transport) (decode : Decoder) (s : Scroller) :
    (NextChunk t decode s).requests =
      [{ method := "GET"
         url := s.baseUrl ++ "/_search/scroll?scroll=" ++ s.expire ++
           "&scroll_id=" ++ s.ScrollId
         body := none, contentType := none, timeout := s.httpTimeout }] := by
  rw [nextChunk_requests]
  rfl

/-- C9: whenever the transport primitive fails an advance call — at the
    connection level or through a status in the failure range — NextChunk
    returns that very error, the scroller is left exactly as it was, and the
    decoder is never consulted. -/
theorem c9_transport_error_frame (t : Transport) (decode : Decoder) (s : Scroller)
    (e : String)
    (h : (sendHTTPRequest t "GET" (advanceUrl s) none s.httpTimeout).1 = .error e) :
    (NextChunk t decode s).error = some e ∧
    (NextChunk t decode s).scroller = s ∧
    (∀ dec2 : Decoder, NextChunk t dec2 s = NextChunk t decode s) := by
  have h1 : NextChunk t decode s =
      { scroller := s, error := some e
        requests := [mkRequest "GET" (advanceUrl s) none s.httpTimeout] } := by
    unfold NextChunk
    rw [h]
    rfl
  refine ⟨by rw [h1], by rw [h1], fun dec2 => ?_⟩
  have h2 : NextChunk t dec2 s =
      { scroller := s, error := some e
        requests := [mkRequest "GET" (advanceUrl s) none s.httpTimeout] } := by
    unfold NextChunk
    rw [h]
    rfl
  rw [h1, h2]

/-- Witness for C9: a connection-refused transport leaves a concrete
    scroller untouched. -/
theorem c9_transport_error_frame_witness :
    (NextChunk tConnRefused egDecode egScroller).scroller = egScroller :=
  (c9_transport_error_frame tConnRefused egDecode egScroller
    "connection refused" rfl).2.1

/-- C4 counterexample: the claim says HTTP 500 on an advance yields a
    TransportError with no field overwritten, but 500 lies outside the
    failure range (201, 404), so NextChunk treats the body as a success:
    at this concrete input it returns no error and overwrites the scroll
    identifier. -/
theorem c4_counterexample :
    (NextChunk t500 decodeNewId egScroller).error = none ∧
    (NextChunk t500 decodeNewId egScroller).scroller.ScrollId = "NEW" :=
  ⟨rfl, rfl⟩

/-- C4 (amended): if the transport answers an advance call with a status
    strictly between 201 and 404 (for example 400), NextChunk returns a
    transport error whose message is the raw body and every field of the
    cursor remains at its pre-call value. -/
theorem c4_advance_failure_range_frame (t : Transport) (decode : Decoder)
    (s : Scroller) (status : Int) (rb : String)
    (ht : t (mkRequest "GET" (advanceUrl s) none s.httpTimeout) = .resp status rb)
    (h2 : 201 < status) (h3 : status < 404) :
    (NextChunk t decode s).error = some rb ∧
    (NextChunk t decode s).scroller = s := by
  have h : (sendHTTPRequest t "GET" (advanceUrl s) none s.httpTimeout).1 =
      .error rb := by
    simp [sendHTTPRequest, httpResult, ht, h2, h3]
  have h1 : NextChunk t decode s =
      { scroller := s, error := some rb
        requests := [mkRequest "GET" (advanceUrl s) none s.httpTimeout] } := by
    unfold NextChunk
    rw [h]
    rfl
  exact ⟨by rw [h1], by rw [h1]⟩

/-- Witness for the amended C4 at HTTP 400 on a concrete scroller. -/
theorem c4_advance_failure_range_frame_witness :
    (NextChunk t400 egDecode egScroller).error = some "bad request" :=
  (c4_advance_failure_range_frame t400 egDecode egScroller 400 "bad request"
    rfl (by decide) (by decide)).1

/-- C2 counterexample: the claim says any expiry not strictly greater than
    zero fails validation with no network I/O, but the code only rejects an
    expiry whose nanosecond count is exactly zero: at expiry = -1s the call
    passes validation, issues one transport request, and returns no
    validation error. -/
theorem c2_counterexample :
    (SearchByScanAndScroll egTransport egDecode egClient "order" "all"
      { ns := -1000000000 } "qb").requests.length = 1 ∧
    (SearchByScanAndScroll egTransport egDecode egClient "order" "all"
      { ns := -1000000000 } "qb").error = none :=
  ⟨rfl, rfl⟩

/-- C2 (amended): Open fails immediately with the validation error and
    performs no transport invocation exactly when the collection is empty,
    the element type is empty, or the expiry's nanosecond count is exactly
    zero; any other input — a negative expiry included — passes validation
    and issues exactly one transport request. -/
theorem c2_validation_exact (t : Transport) (decode : Decoder) (c : Client)
    (idx dt : String) (d : Duration) (qb : String) :
    ((idx = "" ∨ dt = "" ∨ d.ns = 0) →
      SearchByScanAndScroll t decode c idx dt d qb =
        { scroller := none, error := some validationMsg, requests := [] }) ∧
    (¬(idx = "" ∨ dt = "" ∨ d.ns = 0) →
      (SearchByScanAndScroll t decode c idx dt d qb).requests.length = 1) := by
  constructor
  · intro hc
    unfold SearchByScanAndScroll
    rw [if_pos hc]
  · intro hc
    unfold SearchByScanAndScroll
    rw [if_neg hc]
    cases h : (sendHTTPRequest t "POST" (openUrl c idx dt (expireString d))
      (some qb) c.timeout).1 <;> rfl

/-- Witness for the amended C2: an empty collection name is rejected with
    the validation error and zero requests. -/
theorem c2_validation_exact_witness :
    SearchByScanAndScroll egTransport egDecode egClient "" "all"
      { ns := 60000000000 } "qb" =
      { scroller := none, error := some validationMsg, requests := [] } :=
  (c2_validation_exact egTransport egDecode egClient "" "all"
    { ns := 60000000000 } "qb").1 (Or.inl rfl)

/-- C1 counterexample: the claim says Open never returns both a cursor and
    an error, but when the transport succeeds and the body fails to decode,
    the code executes return scroller, err with both non-nil: at this
    concrete input Open returns a cursor and an error together. -/
theorem c1_counterexample :
    (SearchByScanAndScroll egTransport badDecode egClient "order" "all"
      { ns := 60000000000 } "qb").scroller.isSome = true ∧
    (SearchByScanAndScroll egTransport badDecode egClient "order" "all"
      { ns := 60000000000 } "qb").error = some "invalid character" :=
  ⟨rfl, rfl⟩

/-- C1 (amended): for every valid input, Open returns a cursor or an error
    — never neither — and it returns both exactly when the transport call
    succeeded but its actual response body failed to decode, the returned
    error then being that decode error; the identifier is whatever the
    response supplied and is not checked for non-emptiness. -/
theorem c1_open_cursor_or_error (t : Transport) (decode : Decoder) (c : Client)
    (idx dt : String) (d : Duration) (qb : String)
    (h1 : idx ≠ "") (h2 : dt ≠ "") (h3 : 0 < d.ns) :
    ((SearchByScanAndScroll t decode c idx dt d qb).scroller.isSome = true ∨
     (SearchByScanAndScroll t decode c idx dt d qb).error.isSome = true) ∧
    (((SearchByScanAndScroll t decode c idx dt d qb).scroller.isSome = true ∧
      (SearchByScanAndScroll t decode c idx dt d qb).error.isSome = true) ↔
     (∃ rb e,
       (sendHTTPRequest t "POST" (openUrl c idx dt (expireString d)) (some qb)
         c.timeout).1 = .ok rb ∧
       decode rb = .error e ∧
       (SearchByScanAndScroll t decode c idx dt d qb).error = some e)) := by
  have hv : ¬(idx = "" ∨ dt = "" ∨ d.ns = 0) := by
    push_neg
    exact ⟨h1, h2, by omega⟩
  cases h : (sendHTTPRequest t "POST" (openUrl c idx dt (expireString d))
      (some qb) c.timeout).1 with
  | error e =>
      rw [open_err_shape t decode c idx dt d qb e hv h]
      refine ⟨Or.inr rfl, ?_⟩
      constructor
      · intro hboth
        exact absurd hboth.1 (by simp)
      · rintro ⟨rb, e2, hok, -, -⟩
        exact absurd hok (by simp)
  | ok resp =>
      rw [open_ok_shape t decode c idx dt d qb resp hv h]
      refine ⟨Or.inl rfl, ?_⟩
      cases hd : decode resp with
      | error e =>
          have hu : unmarshalScroller decode resp (zeroScroller c (expireString d)) =
              (zeroScroller c (expireString d), some e) := by
            unfold unmarshalScroller
            rw [hd]
          rw [hu]
          constructor
          · intro _
            exact ⟨resp, e, rfl, hd, rfl⟩
          · intro _
            exact ⟨rfl, rfl⟩
      | ok j =>
          have hu : unmarshalScroller decode resp (zeroScroller c (expireString d)) =
              (applyScrollerJson (zeroScroller c (expireString d)) j, none) := by
            unfold unmarshalScroller
            rw [hd]
          rw [hu]
          constructor
          · intro hboth
            exact absurd hboth.2 (by simp)
          · rintro ⟨rb, e2, hok, hde, -⟩
            injection hok with hrb
            subst hrb
            rw [hd] at hde
            exact absurd hde (by simp)

/-- Witness for the amended C1: at a concrete valid input whose body fails
    to decode, the transport success, the decode failure of the actual
    response body and the returned decode error are all exhibited. -/
theorem c1_open_cursor_or_error_witness :
    ∃ rb e,
      (sendHTTPRequest egTransport "POST"
        (openUrl egClient "order" "all" (expireString { ns := 60000000000 }))
        (some "qb") egClient.timeout).1 = Except.ok rb ∧
      badDecode rb = Except.error e ∧
      (SearchByScanAndScroll egTransport badDecode egClient "order" "all"
        { ns := 60000000000 } "qb").error = some e :=
  (c1_open_cursor_or_error egTransport badDecode egClient "order" "all"
    { ns := 60000000000 } "qb" (by decide) (by decide) (by decide)).2.mp
    ⟨rfl, rfl⟩

/-- C6: for every valid input, Open issues exactly one POST request whose
    URL is host/collection/elementType/_search?search_type=scan&scroll=Ss
    with S the expiry truncated to whole seconds, carrying the caller's
    query body and the form-encoded Content-Type, under the client's
    timeout. -/
theorem c6_open_request (t : Transport) (decode : Decoder) (c : Client)
    (idx dt : String) (d : Duration) (qb : String)
    (h1 : idx ≠ "") (h2 : dt ≠ "") (h3 : 0 < d.ns) :
    (SearchByScanAndScroll t decode c idx dt d qb).requests =
      [{ method := "POST"
         url := c.host ++ "/" ++ idx ++ "/" ++ dt ++
           "/_search?search_type=scan&scroll=" ++ (toString d.secondsInt ++ "s")
         body := some qb
         contentType := some "application/x-www-form-urlencoded"
         timeout := c.timeout }] := by
  have hv : ¬(idx = "" ∨ dt = "" ∨ d.ns = 0) := by
    push_neg
    exact ⟨h1, h2, by omega⟩
  unfold SearchByScanAndScroll
  rw [if_neg hv]
  cases h : (sendHTTPRequest t "POST" (openUrl c idx dt (expireString d))
      (some qb) c.timeout).1 <;>
    simp [sendHTTPRequest, mkRequest, contentTypeFor, openUrl, expireString]

/-- Witness for C6: the concrete URL assembled for a 60-second expiry. -/
theorem c6_open_request_witness :
    (SearchByScanAndScroll egTransport egDecode egClient "order" "all"
      { ns := 60000000000 } "qb").requests =
      [{ method := "POST"
         url := "http://localhost:9200/order/all/_search?search_type=scan&scroll=60s"
         body := some "qb"
         contentType := some "application/x-www-form-urlencoded"
         timeout := { ns := 0 } }] :=
  c6_open_request egTransport egDecode egClient "order" "all"
    { ns := 60000000000 } "qb" (by decide) (by decide) (by decide)

/-- C8: an advance call whose decoded response carries a hits object with
    an empty hit array leaves the cursor's page as the empty, present
    (non-nil) sequence of length zero, and the call succeeds. -/
theorem c8_empty_page (t : Transport) (decode : Decoder) (s : Scroller)
    (status : Int) (rb : String) (j : ScrollerJson) (hj : HitsJson)
    (ht : t (mkRequest "GET" (advanceUrl s) none s.httpTimeout) = .resp status rb)
    (hs : ¬(201 < status ∧ status < 404))
    (hd : decode rb = .ok j) (hjh : j.hits = some hj)
    (hhh : hj.hits = some (some [])) :
    (NextChunk t decode s).scroller.Hits.hits = some [] ∧
    (NextChunk t decode s).error = none := by
  have h : (sendHTTPRequest t "GET" (advanceUrl s) none s.httpTimeout).1 =
      .ok rb := by
    simp [sendHTTPRequest, httpResult, ht, hs]
  have h1 : NextChunk t decode s =
      { scroller := (unmarshalScroller decode rb s).1
        error := (unmarshalScroller decode rb s).2
        requests := [mkRequest "GET" (advanceUrl s) none s.httpTimeout] } := by
    unfold NextChunk
    rw [h]
    rfl
  rw [h1]
  simp [unmarshalScroller, hd, applyScrollerJson, hjh, applyHitsJson, hhh]

/-- Witness for C8 at a concrete zero-hit response. -/
theorem c8_empty_page_witness :
    (NextChunk egTransport decodeEmptyHits egScroller).scroller.Hits.hits =
      some [] :=
  (c8_empty_page egTransport decodeEmptyHits egScroller 200 "ok" egJsonEmptyHits
    { total := some 0, maxScore := some { bits := 0 }, hits := some (some []) }
    rfl (by decide) rfl rfl rfl).1

/-- C5: the configuration of a cursor handed out by a successful Open — the
    base address, the expiry string, and the timeout — is never modified by
    any subsequent sequence of advance calls, whatever the network and the
    decoder do at each step. -/
theorem c5_config_immutable (t : Transport) (decode : Decoder) (c : Client)
    (idx dt : String) (d : Duration) (qb : String) (s : Scroller)
    (hopen : (SearchByScanAndScroll t decode c idx dt d qb).scroller = some s)
    (steps : List (Transport × Decoder)) :
    (runAdvances steps s).baseUrl = c.host ∧
    (runAdvances steps s).expire = expireString d ∧
    (runAdvances steps s).httpTimeout = c.timeout := by
  obtain ⟨h1, h2, h3⟩ := open_scroller_config t decode c idx dt d qb s hopen
  obtain ⟨g1, g2, g3⟩ := runAdvances_config steps s
  exact ⟨g1.trans h1, g2.trans h2, g3.trans h3⟩

/-- Witness for C5: a concretely opened cursor keeps its base address
    through a hostile advance step. -/
theorem c5_config_immutable_witness :
    (runAdvances [(t500, decodeNewId)] (zeroScroller egClient "60s")).baseUrl =
      "http://localhost:9200" :=
  (c5_config_immutable egTransport egDecode egClient "order" "all"
    { ns := 60000000000 } "qb" (zeroScroller egClient "60s") rfl
    [(t500, decodeNewId)]).1

/-- C10: every advance of a cursor uses the timeout captured from the
    client at Open time: after any sequence of advances the next advance's
    single request still carries the Open-time client timeout, while
    SetHttpTimeout merely produces a client with the new timeout and leaves
    the already opened cursor's requests unaffected. -/
theorem c10_timeout_captured (t : Transport) (decode : Decoder) (c : Client)
    (idx dt : String) (d : Duration) (qb : String) (s : Scroller)
    (hopen : (SearchByScanAndScroll t decode c idx dt d qb).scroller = some s)
    (d2 : Duration) (steps : List (Transport × Decoder))
    (t2 : Transport) (dec2 : Decoder) :
    (SetHttpTimeout c d2).timeout = d2 ∧
    (NextChunk t2 dec2 (runAdvances steps s)).requests =
      [mkRequest "GET" (advanceUrl (runAdvances steps s)) none c.timeout] := by
  refine ⟨rfl, ?_⟩
  have h3 : (runAdvances steps s).httpTimeout = c.timeout :=
    (runAdvances_config steps s).2.2.trans
      (open_scroller_config t decode c idx dt d qb s hopen).2.2
  rw [nextChunk_requests, h3]

/-- Witness for C10 at a concretely opened cursor: the next advance still
    uses the Open-time timeout even after SetHttpTimeout would have changed
    the client. -/
theorem c10_timeout_captured_witness :
    (NextChunk t500 decodeNewId (runAdvances [] (zeroScroller egClient "60s"))).requests =
      [mkRequest "GET" (advanceUrl (runAdvances [] (zeroScroller egClient "60s")))
        none { ns := 0 }] :=
  (c10_timeout_captured egTransport egDecode egClient "order" "all"
    { ns := 60000000000 } "qb" (zeroScroller egClient "60s") rfl { ns := 5 }
    [] t500 decodeNewId).2

end ES
